import Mathlib

/-!
Shallow embedding of the linkerd2-proxy admin-stack admission pipeline
(`linkerd/app/admin/src/stack.rs`) and the core metrics label model
(`linkerd/app/core/src/metrics/mod.rs`), with theorems settling the
specification's claims about them.

Addresses are modelled as plain strings (the code only constructs,
compares and `Display`-renders them). Machine-level concerns (sockets,
async runtime) are outside the embedded fragment.
-/

/-- Reason recorded when no server-side TLS was established
(`tls::NoServerTls` in the source; the concrete reason enum lives outside
the two source files, so the reason is carried abstractly as a string). -/
structure NoServerTls where
  reason : String
deriving DecidableEq, Repr

/-- `tls::ServerTls`: either a locally terminated (established) TLS session,
or a passed-through TLS session where only the SNI was observed. -/
inductive ServerTls
  | established (clientId : Option String) (negotiatedProtocol : Option String)
  | passthru (sni : String)
deriving DecidableEq, Repr

/-- `tls::ConditionalServerTls = Conditional<ServerTls, NoServerTls>`:
the conditional TLS state attached to every accepted connection. -/
inductive ConditionalServerTls
  | none (reason : NoServerTls)
  | some (tls : ServerTls)
deriving DecidableEq, Repr

/-- `http::Version` as used by the admin stack: HTTP/1 or HTTP/2. -/
inductive Version
  | http1
  | h2
deriving DecidableEq, Repr

/-- A socket address; the code only ever `Display`-renders or copies these,
so a string model suffices. -/
abbrev SocketAddr := String

/-- `struct Tcp` from `stack.rs`: the classified raw connection with its
local bind address, remote client address and conditional TLS state. -/
structure Tcp where
  addr : SocketAddr
  client : SocketAddr
  tls : ConditionalServerTls
deriving DecidableEq, Repr

/-- `struct Http` from `stack.rs`: a connection known to carry HTTP, the
embedded `Tcp` plus the detected (or inferred) version. -/
structure Http where
  tcp : Tcp
  version : Version
deriving DecidableEq, Repr

/-- The admission error values defined in `stack.rs`:
`NonHttpClient(Remote<ClientAddr>)` and
`UnexpectedSni(tls::ServerId, Remote<ClientAddr>)`. -/
inductive AdminError
  | nonHttpClient (client : SocketAddr)
  | unexpectedSni (sni : String) (client : SocketAddr)
deriving DecidableEq, Repr

/-- `detect::DetectTimeoutError`: opaque marker that HTTP detection hit its
deadline. -/
inductive DetectTimeoutError
  | timeout
deriving DecidableEq, Repr

/-- The `push_request_filter` closure in `Config::build` (`stack.rs`
lines 93-133): given the HTTP-detection outcome
(`Result<Option<http::Version>, DetectTimeoutError>`) and the `Tcp`
classification, either produce the `Http` target or fail admission.
The `debug_assert!(false, ..)` on the passthrough/timeout arm compiles to
nothing in release builds and is modelled as a no-op; the arm returns the
`UnexpectedSni` error unconditionally. -/
def requestFilter (http : Except DetectTimeoutError (Option Version)) (tcp : Tcp) :
    Except AdminError Http :=
  match http with
  | Except.ok (Option.some version) => Except.ok { version := version, tcp := tcp }
  | Except.error _timeout =>
    match tcp.tls with
    | ConditionalServerTls.none _ => Except.ok { version := Version.http1, tcp := tcp }
    | ConditionalServerTls.some (ServerTls.established _ _) =>
        Except.ok { version := Version.h2, tcp := tcp }
    | ConditionalServerTls.some (ServerTls.passthru sni) =>
        Except.error (AdminError.unexpectedSni sni tcp.client)
  | Except.ok Option.none =>
    match tcp.tls with
    | ConditionalServerTls.some (ServerTls.passthru sni) =>
        Except.error (AdminError.unexpectedSni sni tcp.client)
    | _ => Except.error (AdminError.nonHttpClient tcp.client)

/-- C1: when HTTP detection times out, the fallback resolver classifies the
connection as HTTP/1 if the `Tcp` value's TLS state is `None`, and as HTTP/2
if it is `Established`; both cases yield an `Http` classification, not an
error. -/
theorem timeout_fallback_infers_version (tcp : Tcp) (e : DetectTimeoutError) :
    (∀ r, tcp.tls = ConditionalServerTls.none r →
      requestFilter (Except.error e) tcp =
        Except.ok { version := Version.http1, tcp := tcp }) ∧
    (∀ cid np, tcp.tls = ConditionalServerTls.some (ServerTls.established cid np) →
      requestFilter (Except.error e) tcp =
        Except.ok { version := Version.h2, tcp := tcp }) := by
  constructor
  · intro r h
    simp [requestFilter, h]
  · intro cid np h
    simp [requestFilter, h]

/-- Witness for C1 at concrete inputs: a plaintext connection timing out is
classified HTTP/1, an established-TLS connection timing out is classified
HTTP/2. -/
theorem timeout_fallback_infers_version_witness :
    requestFilter (Except.error DetectTimeoutError.timeout)
        ⟨"10.0.0.1:4191", "10.0.0.2:5000", ConditionalServerTls.none ⟨"no_tls_from_remote"⟩⟩ =
      Except.ok ⟨⟨"10.0.0.1:4191", "10.0.0.2:5000",
        ConditionalServerTls.none ⟨"no_tls_from_remote"⟩⟩, Version.http1⟩ ∧
    requestFilter (Except.error DetectTimeoutError.timeout)
        ⟨"10.0.0.1:4191", "10.0.0.2:5000",
          ConditionalServerTls.some (ServerTls.established (Option.some ("peer.id")) Option.none)⟩ =
      Except.ok ⟨⟨"10.0.0.1:4191", "10.0.0.2:5000",
        ConditionalServerTls.some (ServerTls.established (Option.some ("peer.id")) Option.none)⟩,
        Version.h2⟩ :=
  ⟨(timeout_fallback_infers_version _ _).1 _ rfl,
   (timeout_fallback_infers_version _ _).2 _ _ rfl⟩

/-- C2: when HTTP detection times out while the TLS state is
`Passthru{sni}`, the filter fails with `UnexpectedSni` carrying exactly that
SNI and the connection's client address; the debug-only assertion on this
arm does not change the outcome (the error is returned unconditionally). -/
theorem timeout_passthru_fails_unexpected_sni (tcp : Tcp) (e : DetectTimeoutError)
    (sni : String) (h : tcp.tls = ConditionalServerTls.some (ServerTls.passthru sni)) :
    requestFilter (Except.error e) tcp =
      Except.error (AdminError.unexpectedSni sni tcp.client) := by
  simp [requestFilter, h]

/-- Witness for C2 at a concrete passthrough connection. -/
theorem timeout_passthru_fails_unexpected_sni_witness :
    requestFilter (Except.error DetectTimeoutError.timeout)
        ⟨"10.0.0.1:4191", "10.0.0.2:5000",
          ConditionalServerTls.some (ServerTls.passthru ("other.example.com"))⟩ =
      Except.error (AdminError.unexpectedSni ("other.example.com") ("10.0.0.2:5000")) :=
  timeout_passthru_fails_unexpected_sni _ DetectTimeoutError.timeout _ rfl

/-- C3: when HTTP detection completes ambiguously (`Ok(None)`), the filter
fails with `UnexpectedSni{sni}` if the TLS state is `Passthru{sni}`, and
otherwise fails with `NonHttpClient` carrying the connection's actual client
address. -/
theorem ambiguous_detection_fails (tcp : Tcp) :
    (∀ sni, tcp.tls = ConditionalServerTls.some (ServerTls.passthru sni) →
      requestFilter (Except.ok Option.none) tcp =
        Except.error (AdminError.unexpectedSni sni tcp.client)) ∧
    ((∀ sni, tcp.tls ≠ ConditionalServerTls.some (ServerTls.passthru sni)) →
      requestFilter (Except.ok Option.none) tcp =
        Except.error (AdminError.nonHttpClient tcp.client)) := by
  constructor
  · intro sni h
    simp [requestFilter, h]
  · intro h
    cases htls : tcp.tls with
    | none r => simp [requestFilter, htls]
    | some t =>
      cases t with
      | established cid np => simp [requestFilter, htls]
      | passthru sni => exact absurd htls (h sni)

/-- Witness for C3: a passthrough connection with ambiguous detection is
refused with `UnexpectedSni`, a plaintext one with `NonHttpClient` carrying
its client address. -/
theorem ambiguous_detection_fails_witness :
    requestFilter (Except.ok Option.none)
        ⟨"10.0.0.1:4191", "10.0.0.2:5000",
          ConditionalServerTls.some (ServerTls.passthru ("other.example.com"))⟩ =
      Except.error (AdminError.unexpectedSni ("other.example.com") ("10.0.0.2:5000")) ∧
    requestFilter (Except.ok Option.none)
        ⟨"10.0.0.1:4191", "10.0.0.2:5000", ConditionalServerTls.none ⟨"no_tls_from_remote"⟩⟩ =
      Except.error (AdminError.nonHttpClient ("10.0.0.2:5000")) :=
  ⟨(ambiguous_detection_fails _).1 _ rfl,
   (ambiguous_detection_fails _).2 (by intro sni h; cases h)⟩

/-- C4: when HTTP detection succeeds with a version, the filter produces
`Http{version, tcp}` with exactly the detected version and the input `Tcp`
(local address, client address, TLS state) unchanged. -/
theorem detected_version_classifies_http (tcp : Tcp) (v : Version) :
    requestFilter (Except.ok (Option.some v)) tcp =
      Except.ok { version := v, tcp := tcp } := by
  rfl

/-- Concatenation of a list of rendered label fragments, in order. -/
def strConcat : List String → String
  | [] => ""
  | s :: rest => s ++ strConcat rest

/-- Left folds that append one rendered fragment per element equal the
start string followed by the concatenation of all fragments in order. -/
theorem foldl_append_strConcat {α : Type} (f : α → String) (l : List α) (acc : String) :
    l.foldl (fun s x => s ++ f x) acc = acc ++ strConcat (l.map f) := by
  induction l generalizing acc with
  | nil => simp [strConcat]
  | cons a t ih => simp [strConcat, ih, String.append_assoc]

/-- Modelled from the spec: the pair `FmtLabels` instance of the
`linkerd_metrics` crate (not under src/) renders its two components
comma-joined (§6 exposition format: `key="value"` pairs, comma-joined). -/
def fmtPair (a b : String) : String := a ++ "," ++ b

/-- Modelled from the spec: `transport::labels::TargetAddr` (not under
src/) renders as a `target_addr="<addr>"` label (§8 example rendering). -/
def TargetAddr.fmt_labels (addr : SocketAddr) : String :=
  "target_addr=\"" ++ addr ++ "\""

/-- Modelled from the spec: `transport::labels::TlsAccept` (not under
src/) renders the conditional server TLS state; the no-TLS case renders
`tls="no_identity"` followed by its reason sub-field (§8: exact TLS
sub-fields per the existing conditional-TLS formatting). -/
def TlsAccept.fmt_labels : ConditionalServerTls → String
  | ConditionalServerTls.none r =>
      "tls=\"no_identity\",no_tls_reason=\"" ++ r.reason ++ "\""
  | ConditionalServerTls.some (ServerTls.established (Option.some id) _) =>
      "tls=\"true\",client_id=\"" ++ id ++ "\""
  | ConditionalServerTls.some (ServerTls.established Option.none _) =>
      "tls=\"true\",client_id=\"\""
  | ConditionalServerTls.some (ServerTls.passthru sni) =>
      "tls=\"true\",sni=\"" ++ sni ++ "\""

/-- `tls::ConditionalClientTls` for outbound endpoints: either no client
TLS (with a reason) or TLS to a given server identity (concrete enum lives
outside the two source files). -/
inductive ConditionalClientTls
  | none (reason : String)
  | some (serverId : String)
deriving DecidableEq, Repr

/-- Modelled from the spec: `transport::labels::TlsConnect` (not under
src/) renders the conditional client TLS state analogously to the accept
side. -/
def TlsConnect.fmt_labels : ConditionalClientTls → String
  | ConditionalClientTls.none r => "tls=\"no_identity\",no_tls_reason=\"" ++ r ++ "\""
  | ConditionalClientTls.some sid => "tls=\"true\",server_id=\"" ++ sid ++ "\""

/-- `Direction` from `metrics/mod.rs`. -/
inductive Direction
  | In
  | Out
deriving DecidableEq, Repr

/-- The `Display` impl for `Direction`. -/
def Direction.display : Direction → String
  | Direction.In => "inbound"
  | Direction.Out => "outbound"

/-- The `FmtLabels` impl for `Direction`: `direction="<display>"`. -/
def Direction.fmt_labels (d : Direction) : String :=
  "direction=\"" ++ d.display ++ "\""

/-- The `FmtLabels` impl for `Authority` (a wrapped URI authority,
rendered by `Display`; modelled as its string form). -/
def Authority.fmt_labels (a : String) : String :=
  "authority=\"" ++ a ++ "\""

/-- `PolicyLabels` from `metrics/mod.rs`: the server-policy and
authorization-policy label maps. `policy::Labels` is a key-value map whose
iteration order the list order models. -/
structure PolicyLabels where
  server : List (String × String)
  authz : List (String × String)
deriving DecidableEq, Repr

/-- `InboundEndpointLabels` from `metrics/mod.rs`. -/
structure InboundEndpointLabels where
  tls : ConditionalServerTls
  authority : Option String
  target_addr : SocketAddr
  policy : PolicyLabels
deriving DecidableEq, Repr

/-- `OutboundEndpointLabels` from `metrics/mod.rs`. -/
structure OutboundEndpointLabels where
  server_id : ConditionalClientTls
  authority : Option String
  labels : Option String
  target_addr : SocketAddr
deriving DecidableEq, Repr

/-- `EndpointLabels` from `metrics/mod.rs`: inbound or outbound payload. -/
inductive EndpointLabels
  | Inbound (i : InboundEndpointLabels)
  | Outbound (o : OutboundEndpointLabels)
deriving DecidableEq, Repr

/-- One fragment written per policy-map entry by the loops in
`FmtLabels for InboundEndpointLabels`
(`write!(f, ",srv_{}=\"{}\"", k, v)` and the `saz_` analogue): a leading
comma, the prefix tag, then `key="value"`. -/
def policyEntry (pre : String) (kv : String × String) : String :=
  "," ++ pre ++ kv.1 ++ "=\"" ++ kv.2 ++ "\""

/-- The policy-label loops: fold over the map entries in iteration order,
appending one fragment per entry to the output written so far. -/
def fmtPolicyEntries (pre : String) (l : List (String × String)) (acc : String) : String :=
  l.foldl (fun out kv => out ++ policyEntry pre kv) acc

/-- The `FmtLabels` impl for `InboundEndpointLabels`
(`metrics/mod.rs` lines 286-304): optional authority, then the
comma-joined target-address/TLS pair, then the `srv_` policy loop, then
the `saz_` policy loop. -/
def InboundEndpointLabels.fmt_labels (i : InboundEndpointLabels) : String :=
  fmtPolicyEntries ("saz_") i.policy.authz
    (fmtPolicyEntries ("srv_") i.policy.server
      ((match i.authority with
        | Option.some a => Authority.fmt_labels a ++ ","
        | Option.none => "") ++
        fmtPair (TargetAddr.fmt_labels i.target_addr) (TlsAccept.fmt_labels i.tls)))

/-- The `FmtLabels` impl for `OutboundEndpointLabels`
(`metrics/mod.rs` lines 306-323). -/
def OutboundEndpointLabels.fmt_labels (o : OutboundEndpointLabels) : String :=
  (match o.authority with
    | Option.some a => Authority.fmt_labels a ++ ","
    | Option.none => "") ++
    fmtPair (TargetAddr.fmt_labels o.target_addr) (TlsConnect.fmt_labels o.server_id) ++
    (match o.labels with
      | Option.some ls => "," ++ ls
      | Option.none => "")

/-- The `FmtLabels` impl for `EndpointLabels`
(`metrics/mod.rs` lines 277-284): direction paired with the payload. -/
def EndpointLabels.fmt_labels : EndpointLabels → String
  | EndpointLabels.Inbound i => fmtPair (Direction.fmt_labels Direction.In) i.fmt_labels
  | EndpointLabels.Outbound o => fmtPair (Direction.fmt_labels Direction.Out) o.fmt_labels

/-- The concrete inbound label value of the spec's §8 example: no TLS,
no authority, target `10.0.0.1:80`, both policy maps empty. -/
def plaintextAdminLabels : InboundEndpointLabels :=
  ⟨ConditionalServerTls.none ⟨"no_tls_from_remote"⟩, Option.none, "10.0.0.1:80", ⟨[], []⟩⟩

set_option maxRecDepth 4096 in
/-- C5: rendering `InboundEndpointLabels` with `tls=None`, no authority,
target `10.0.0.1:80` and empty policy maps (as the inbound variant of
`EndpointLabels`) yields text starting
`direction="inbound",target_addr="10.0.0.1:80",tls="no_identity"` (the
remainder being the conditional-TLS sub-fields), with no `srv_` and no
`saz_` segment anywhere in the output. -/
theorem inbound_empty_policy_rendering :
    (∃ rest, EndpointLabels.fmt_labels (EndpointLabels.Inbound plaintextAdminLabels) =
      "direction=\"inbound\",target_addr=\"10.0.0.1:80\",tls=\"no_identity\"" ++ rest) ∧
    ¬ ("srv_".toList <:+:
      (EndpointLabels.fmt_labels (EndpointLabels.Inbound plaintextAdminLabels)).toList) ∧
    ¬ ("saz_".toList <:+:
      (EndpointLabels.fmt_labels (EndpointLabels.Inbound plaintextAdminLabels)).toList) := by
  refine ⟨⟨",no_tls_reason=\"no_tls_from_remote\"", ?_⟩, ?_, ?_⟩
  · rfl
  · decide
  · decide

/-- C6: for every `InboundEndpointLabels` value, the rendering equals the
base labels followed by one `,srv_<key>="<value>"` fragment per
server-policy entry and then one `,saz_<key>="<value>"` fragment per
authorization-policy entry — all server entries before all authz entries,
each map in its iteration order, each fragment carrying its own leading
comma so the text never ends in a comma the loops added; and `Direction`
renders as `direction="inbound"` for `In` and `direction="outbound"` for
`Out`. -/
theorem inbound_policy_loops_rendering (i : InboundEndpointLabels) :
    InboundEndpointLabels.fmt_labels i =
      (match i.authority with
        | Option.some a => Authority.fmt_labels a ++ ","
        | Option.none => "") ++
        fmtPair (TargetAddr.fmt_labels i.target_addr) (TlsAccept.fmt_labels i.tls) ++
        strConcat (i.policy.server.map (policyEntry ("srv_"))) ++
        strConcat (i.policy.authz.map (policyEntry ("saz_"))) ∧
    Direction.fmt_labels Direction.In = "direction=\"inbound\"" ∧
    Direction.fmt_labels Direction.Out = "direction=\"outbound\"" := by
  refine ⟨?_, rfl, rfl⟩
  simp [InboundEndpointLabels.fmt_labels, fmtPolicyEntries, foldl_append_strConcat,
    String.append_assoc]

/-- One `<prefix>_<key>="<value>"` fragment, the shape formatted by
`prefix_labels` for the first pair (and, after a comma, for the rest). -/
def renderedPair (pre : String) (kv : String × String) : String :=
  pre ++ "_" ++ kv.1 ++ "=\"" ++ kv.2 ++ "\""

/-- `prefix_labels` from `metrics/mod.rs` (lines 117-128): `None` on an
empty iterator; otherwise the first pair rendered without a comma and each
further pair appended with a leading comma. -/
def prefix_labels (pre : String) (labels : List (String × String)) : Option String :=
  match labels with
  | [] => Option.none
  | kv0 :: rest =>
      Option.some (rest.foldl (fun out kv => out ++ ("," ++ renderedPair pre kv))
        (renderedPair pre kv0))

/-- The claim's description of `prefix_labels`: the rendered pairs joined
by single commas, no leading or trailing comma, in iterator order. -/
def prefix_labels_spec (pre : String) (labels : List (String × String)) : Option String :=
  match labels with
  | [] => Option.none
  | l => Option.some (String.intercalate (",") (l.map (renderedPair pre)))

/-- `String.intercalate.go` accumulates the separator-prefixed fragments
after the accumulator. -/
theorem intercalate_go_eq (s acc : String) (l : List String) :
    String.intercalate.go acc s l = acc ++ strConcat (l.map (fun x => s ++ x)) := by
  induction l generalizing acc with
  | nil => simp [String.intercalate.go, strConcat]
  | cons a t ih => simp [String.intercalate.go, strConcat, ih, String.append_assoc]

/-- Intercalating a nonempty list is the head followed by the
separator-prefixed tail fragments. -/
theorem intercalate_cons_eq (s x : String) (l : List String) :
    String.intercalate s (x :: l) = x ++ strConcat (l.map (fun y => s ++ y)) := by
  simp [String.intercalate, intercalate_go_eq]

/-- C10: `prefix_labels` returns `None` exactly on the empty iterator and
otherwise `Some` of the `<prefix>_<key>="<value>"` fragments joined by
single commas with no leading or trailing comma, preserving the iterator's
order. -/
theorem prefix_labels_eq_spec (pre : String) (labels : List (String × String)) :
    prefix_labels pre labels = prefix_labels_spec pre labels := by
  cases labels with
  | nil => rfl
  | cons kv0 rest =>
    simp [prefix_labels, prefix_labels_spec, intercalate_cons_eq,
      foldl_append_strConcat, List.map_map, Function.comp_def]

/-- Modelled from the spec: a metrics report (the `FmtMetrics` collaborator
contract; the trait and its `and_then` combinator live outside the two
source files) renders its current state as exposition text appended to an
output buffer. The model carries that rendered text. -/
structure Report where
  render : String
deriving DecidableEq, Repr

/-- Modelled from the spec: the `and_then` report-merge combinator renders
the first report's exposition text followed by the second's
(§4.5: merging concatenates the individually-rendered text blocks). The
admin metrics report is the `and_then` chain built in `Metrics::new`
(`metrics/mod.rs` lines 201-212). -/
def Report.and_then (a b : Report) : Report :=
  ⟨a.render ++ b.render⟩

/-- C7: merging reports with `and_then` is associative — `((A,B),C)` and
`(A,(B,C))` render byte-for-byte the same exposition text — and a merge
never re-orders or interleaves a category's individually-rendered block:
the merged text is the first block followed by the second, each unchanged
and contiguous. -/
theorem report_merge_associative (a b c : Report) :
    ((a.and_then b).and_then c).render = (a.and_then (b.and_then c)).render ∧
    ∀ x y : Report, (x.and_then y).render = x.render ++ y.render := by
  constructor
  · simp [Report.and_then, String.append_assoc]
  · intro x y
    rfl

/-- Severity of an emitted log line; the respond closure logs with
`tracing::warn!`. -/
inductive LogLevel
  | warn
  | debugLevel
deriving DecidableEq, Repr

/-- One structured log line: a severity and a message. -/
structure LogEvent where
  level : LogLevel
  message : String
deriving DecidableEq, Repr

/-- A boxed `Error` value reaching the respond layer: an admission error
or any other boxed error (the closure is generic over every error kind). -/
inductive BoxedError
  | admission (e : AdminError)
  | other (description : String)
deriving DecidableEq, Repr

/-- Modelled from the spec: `SyntheticHttpResponse::unexpected_error()`
(constructor outside the two source files) — the locally generated,
content-free "unexpected error" response. -/
inductive SyntheticHttpResponse
  | unexpectedError
deriving DecidableEq, Repr

/-- The closure passed to `errors::NewRespond::layer` in `Config::build`
(`stack.rs` lines 86-89): log the error at warning level and return
`Ok(SyntheticHttpResponse::unexpected_error())`. The emitted log events
are modelled as an explicit output list alongside the returned result. -/
def respondToError (_error : BoxedError) :
    List LogEvent × Except BoxedError SyntheticHttpResponse :=
  ([⟨LogLevel.warn, "Unexpected error"⟩],
    Except.ok SyntheticHttpResponse.unexpectedError)

/-- C8: the downstream-error response mapping is total: for every error
value, the respond closure returns `Ok` of the synthetic "unexpected
error" response (never the error itself) and emits exactly one
warning-level log entry. -/
theorem respond_total_synthetic_response (e : BoxedError) :
    (respondToError e).2 = Except.ok SyntheticHttpResponse.unexpectedError ∧
    (respondToError e).1.length = 1 ∧
    ∀ ev, ev ∈ (respondToError e).1 → ev.level = LogLevel.warn := by
  refine ⟨rfl, rfl, ?_⟩
  intro ev hev
  cases hev with
  | head => rfl
  | tail _ h => cases h

/-- `metrics::ServerLabel` from the `linkerd_metrics` crate (not under
src/; a newtype over the server-policy label string, modelled from its
construction sites in `stack.rs`). -/
structure ServerLabel where
  label : String
deriving DecidableEq, Repr

/-- `metrics::AuthzLabels` from the `linkerd_metrics` crate (not under
src/): the server-policy label together with the authorization-policy
label, modelled from its construction site in `stack.rs`. -/
structure AuthzLabels where
  server : ServerLabel
  authz : String
deriving DecidableEq, Repr

/-- `transport::labels::Key::inbound_server` (constructor outside the two
source files): the transport-metrics key recording the connection's TLS
state, target address and server label. -/
structure TransportKey where
  tls : ConditionalServerTls
  target_addr : SocketAddr
  server : ServerLabel
deriving DecidableEq, Repr

/-- `Param<transport::labels::Key> for Tcp` (`stack.rs` lines 163-172):
the key is built from the connection's TLS state and local address with
the fixed server label `default:admin`. -/
def Tcp.paramTransportKey (t : Tcp) : TransportKey :=
  ⟨t.tls, t.addr, ⟨"default:admin"⟩⟩

/-- `Param<metrics::ServerLabel> for Http` (`stack.rs` lines 188-192). -/
def Http.paramServerLabel (_h : Http) : ServerLabel :=
  ⟨"default:admin"⟩

/-- The `InboundEndpointLabels` shape constructed by the admin stack
(`stack.rs` uses the `AuthzLabels` policy pair of the `linkerd_metrics`
crate for its `policy` field). -/
structure AdminInboundEndpointLabels where
  tls : ConditionalServerTls
  authority : Option String
  target_addr : SocketAddr
  policy : AuthzLabels
deriving DecidableEq, Repr

/-- The endpoint-labels variant produced by the admin stack (the
`.into()` at the end of the `Param` impl selects the `Inbound` variant). -/
inductive AdminEndpointLabels
  | Inbound (i : AdminInboundEndpointLabels)
deriving DecidableEq, Repr

/-- `Param<metrics::EndpointLabels> for Http` (`stack.rs` lines 194-207):
inbound labels with the connection's TLS state, no authority, the local
target address, and the fixed policy labels. -/
def Http.paramEndpointLabels (h : Http) : AdminEndpointLabels :=
  AdminEndpointLabels.Inbound
    ⟨h.tcp.tls, Option.none, h.tcp.addr,
      ⟨h.paramServerLabel, "default:all-unauthenticated"⟩⟩

/-- C9: every `Http` classification's endpoint labels are the `Inbound`
variant with `authority=None`, the `Tcp` value's local address and TLS
state, server label exactly `default:admin` and authorization label
exactly `default:all-unauthenticated`; and every `Tcp` value's
transport-metrics key carries its TLS state, its local address and the
fixed server label `default:admin`. -/
theorem admin_fixed_policy_labels (h : Http) (t : Tcp) :
    h.paramEndpointLabels = AdminEndpointLabels.Inbound
      ⟨h.tcp.tls, Option.none, h.tcp.addr,
        ⟨⟨"default:admin"⟩, "default:all-unauthenticated"⟩⟩ ∧
    t.paramTransportKey = ⟨t.tls, t.addr, ⟨"default:admin"⟩⟩ :=
  ⟨rfl, rfl⟩
